import Mathlib

/-!
Verification of the CalorieWise nutrition engine
(`backend/calculator.py`, class `CalorieCalculator`).

The Python source works on `float`/`int` values with decimal literals and
the Python built-in `round` (round half to even).  The shallow embedding
below models the numeric values as exact rationals `ℚ` (every constant of
the source is a decimal literal, exact in `ℚ`), integers as `ℤ`, Python
dictionaries with string keys as functions `String → Option _`, the raising
division of Python (`ZeroDivisionError`) as `Except String _`, and the
Python `round` as `pyround` (round to nearest, ties to even).
-/

namespace CalorieWise

/-- The Python built-in `round(x)`: round to the nearest integer,
ties going to the even integer. -/
def pyround (q : ℚ) : ℤ :=
  if q - ⌊q⌋ < 1/2 then ⌊q⌋
  else if q - ⌊q⌋ > 1/2 then ⌊q⌋ + 1
  else if ⌊q⌋ % 2 = 0 then ⌊q⌋ else ⌊q⌋ + 1

/-- The Python `round(x, n)` for `n` decimal places. -/
def pyround_to (n : ℕ) (q : ℚ) : ℚ :=
  (pyround (q * 10 ^ n) : ℚ) / 10 ^ n

/-- The Python string method `lower()` (character-wise lowering; the
source only ever compares against the ASCII literal `male`). -/
def pyLower (s : String) : String := String.mk (s.data.map Char.toLower)

/-- `CalorieCalculator.__init__`: the dictionary `self.activity_multipliers`. -/
def activity_multipliers (s : String) : Option ℚ :=
  if s = "sedentary" then some 1.2
  else if s = "light" then some 1.375
  else if s = "moderate" then some 1.55
  else if s = "active" then some 1.725
  else if s = "extra_active" then some 1.9
  else none

/-- `CalorieCalculator.__init__`: the dictionary `self.goal_adjustments`. -/
def goal_adjustments (s : String) : Option ℤ :=
  if s = "lose_fast" then some (-1000)
  else if s = "lose" then some (-500)
  else if s = "maintain" then some 0
  else if s = "gain" then some 500
  else if s = "gain_fast" then some 1000
  else none

/-- `CalorieCalculator.convert_weight`. -/
def convert_weight (weight : ℚ) (from_unit : String) : ℚ :=
  if from_unit = "lbs" then weight * 0.453592 else weight

/-- `CalorieCalculator.convert_height` (the Python defaults are
`feet=0, inches=0`). -/
def convert_height (height : ℚ) (from_unit : String) (feet : ℤ) (inches : ℤ) : ℚ :=
  if from_unit = "ft" then (feet : ℚ) * 30.48 + (inches : ℚ) * 2.54 else height

/-- `CalorieCalculator.calculate_bmr_mifflin` (Mifflin-St Jeor). -/
def calculate_bmr_mifflin (weight_kg height_cm : ℚ) (age : ℤ) (gender : String) : ℚ :=
  if pyLower gender = "male" then
    10 * weight_kg + 6.25 * height_cm - 5 * (age : ℚ) + 5
  else
    10 * weight_kg + 6.25 * height_cm - 5 * (age : ℚ) - 161

/-- `CalorieCalculator.calculate_tdee`:
`self.activity_multipliers.get(activity_level, 1.2)`. -/
def calculate_tdee (bmr : ℚ) (activity_level : String) : ℚ :=
  bmr * (activity_multipliers activity_level).getD 1.2

/-- The error signal of the Python `ZeroDivisionError` for floats. -/
def divisionByZeroMsg : String := "float division by zero"

/-- `CalorieCalculator.calculate_bmi`: `weight_kg / (height_cm/100) ** 2`,
raising `ZeroDivisionError` when the height is zero. -/
def calculate_bmi (weight_kg height_cm : ℚ) : Except String ℚ :=
  if height_cm = 0 then Except.error divisionByZeroMsg
  else Except.ok (weight_kg / (height_cm / 100) ^ 2)

/-- `CalorieCalculator.get_bmi_category`. -/
def get_bmi_category (bmi : ℚ) : String :=
  if bmi < 18.5 then "Underweight"
  else if bmi < 25 then "Normal"
  else if bmi < 30 then "Overweight"
  else "Obese"

/-- One entry of the macro breakdown: `{'grams': ..., 'percent': ...}`. -/
structure MacroInfo where
  grams : ℤ
  percent : ℤ
deriving DecidableEq, Repr

/-- The `ratios` dictionary argument of `calculate_macros`. -/
structure MacroRatios where
  protein : ℚ
  carbs : ℚ
  fats : ℚ
deriving DecidableEq, Repr

/-- The result dictionary of `calculate_macros`. -/
structure MacroBreakdown where
  protein : MacroInfo
  carbs : MacroInfo
  fats : MacroInfo
deriving DecidableEq, Repr

/-- The default ratios `{'protein': 0.30, 'carbs': 0.40, 'fats': 0.30}`. -/
def defaultRatios : MacroRatios := ⟨0.30, 0.40, 0.30⟩

/-- `CalorieCalculator.calculate_macros` (the Python default is
`ratios=None`). -/
def calculate_macros (calories : ℤ) (ratios : Option MacroRatios) : MacroBreakdown :=
  let r := ratios.getD defaultRatios
  { protein := ⟨pyround ((calories : ℚ) * r.protein / 4), pyround (r.protein * 100)⟩
    carbs := ⟨pyround ((calories : ℚ) * r.carbs / 4), pyround (r.carbs * 100)⟩
    fats := ⟨pyround ((calories : ℚ) * r.fats / 9), pyround (r.fats * 100)⟩ }

/-- `CalorieCalculator.generate_meal_plan` (the Python default is
`meals=4`), as the ordered association list of the returned dictionary. -/
def generate_meal_plan (calories : ℤ) (meals : ℤ) : List (String × ℤ) :=
  if meals = 3 then
    [("breakfast", pyround ((calories : ℚ) * 0.30)),
     ("lunch", pyround ((calories : ℚ) * 0.40)),
     ("dinner", pyround ((calories : ℚ) * 0.30))]
  else if meals = 5 then
    [("breakfast", pyround ((calories : ℚ) * 0.25)),
     ("snack1", pyround ((calories : ℚ) * 0.10)),
     ("lunch", pyround ((calories : ℚ) * 0.30)),
     ("snack2", pyround ((calories : ℚ) * 0.10)),
     ("dinner", pyround ((calories : ℚ) * 0.25))]
  else
    [("breakfast", pyround ((calories : ℚ) * 0.25)),
     ("lunch", pyround ((calories : ℚ) * 0.35)),
     ("dinner", pyround ((calories : ℚ) * 0.30)),
     ("snacks", pyround ((calories : ℚ) * 0.10))]

/-- Total calories of a generated meal plan. -/
def meal_plan_total (calories : ℤ) (meals : ℤ) : ℤ :=
  ((generate_meal_plan calories meals).map Prod.snd).sum

/-- `CalorieCalculator.calculate_weekly_change`: `(d * 7) / 7700`. -/
def calculate_weekly_change (daily_deficit_surplus : ℤ) : ℚ :=
  ((daily_deficit_surplus : ℚ) * 7) / 7700

/-- The result dictionary of `calculate_all`. -/
structure CalcResult where
  bmr : ℤ
  tdee : ℤ
  daily_calories : ℤ
  bmi : ℚ
  bmi_category : String
  macros : MacroBreakdown
  meal_plan : List (String × ℤ)
  weekly_deficit_surplus : ℤ
  projected_weekly_change_kg : ℚ
  weight_kg : ℚ
  height_cm : ℚ
deriving DecidableEq, Repr

/-- `CalorieCalculator.calculate_all`.  The `ZeroDivisionError` that
`calculate_bmi` may raise propagates out as `Except.error`.
`convert_height` is called without `feet`/`inches`, so the Python defaults
(`0`, `0`) apply. -/
def calculate_all (age : ℤ) (gender : String) (weight height : ℚ)
    (activity_level goal : String) (weight_unit height_unit : String) :
    Except String CalcResult :=
  let weight_kg := convert_weight weight weight_unit
  let height_cm := convert_height height height_unit 0 0
  let bmr := calculate_bmr_mifflin weight_kg height_cm age gender
  let tdee := calculate_tdee bmr activity_level
  match calculate_bmi weight_kg height_cm with
  | Except.error e => Except.error e
  | Except.ok bmi =>
    let bmi_category := get_bmi_category bmi
    let goal_adjustment := (goal_adjustments goal).getD 0
    let daily_calories := pyround (tdee + (goal_adjustment : ℚ))
    let macros := calculate_macros daily_calories none
    let meal_plan := generate_meal_plan daily_calories 4
    let weekly_change := calculate_weekly_change goal_adjustment
    Except.ok
      { bmr := pyround bmr
        tdee := pyround tdee
        daily_calories := daily_calories
        bmi := pyround_to 1 bmi
        bmi_category := bmi_category
        macros := macros
        meal_plan := meal_plan
        weekly_deficit_surplus := goal_adjustment
        projected_weekly_change_kg := pyround_to 2 weekly_change
        weight_kg := pyround_to 1 weight_kg
        height_cm := pyround_to 1 height_cm }

/-! ## Supporting lemmas -/

/-- The Python `round` lands within one half of its argument. -/
lemma abs_pyround_sub (q : ℚ) : |(pyround q : ℚ) - q| ≤ 1/2 := by
  have h1 : (⌊q⌋ : ℚ) ≤ q := Int.floor_le q
  have h2 : q < ⌊q⌋ + 1 := Int.lt_floor_add_one q
  unfold pyround
  split_ifs with ha hb hc
  · rw [abs_le]; constructor <;> linarith
  · rw [not_lt] at ha; rw [abs_le]; push_cast; constructor <;> linarith
  · rw [not_lt] at ha hb; rw [abs_le]; constructor <;> linarith
  · rw [not_lt] at ha hb; rw [abs_le]; push_cast; constructor <;> linarith

lemma pyround_bounds (q : ℚ) :
    -(1/2) ≤ (pyround q : ℚ) - q ∧ (pyround q : ℚ) - q ≤ 1/2 :=
  abs_le.mp (abs_pyround_sub q)

lemma natAbs_le_two_of_cast_lt (n : ℤ) (h1 : (n : ℚ) < 3) (h2 : (-3 : ℚ) < (n : ℚ)) :
    n.natAbs ≤ 2 := by
  have h1i : n < 3 := by exact_mod_cast h1
  have h2i : (-3 : ℤ) < n := by exact_mod_cast h2
  omega

/-- With a nonzero height, `calculate_bmi` takes its non-raising branch. -/
lemma calculate_bmi_ne_zero (w h : ℚ) (hh : h ≠ 0) :
    calculate_bmi w h = Except.ok (w / (h / 100) ^ 2) := by
  rw [calculate_bmi, if_neg hh]

/-! ## The claims -/

/-- C2 (counterexample): at male, 70 kg, 175 cm, age 25 the formula of the
source yields `10*70 + 6.25*175 - 5*25 + 5 = 1673.75`, not the `1073.75`
the claim states. -/
theorem calculate_bmr_claim_value_false :
    ¬ calculate_bmr_mifflin 70 175 25 "male" = 1073.75 := by
  have hm : pyLower "male" = "male" := by decide
  rw [calculate_bmr_mifflin, if_pos hm]
  norm_num

/-- C2 (amended): `calculate_bmr_mifflin` implements Mifflin-St Jeor:
`10*w + 6.25*h - 5*age + 5` when the lowered gender equals `male`,
`10*w + 6.25*h - 5*age - 161` otherwise; at male, 70 kg, 175 cm, age 25
it returns exactly `1673.75`; and the result is not clamped: it is
negative for extreme inputs (male, 1 kg, 1 cm, age 50). -/
theorem calculate_bmr_spec :
    (∀ (w h : ℚ) (a : ℤ) (g : String),
      calculate_bmr_mifflin w h a g =
        if pyLower g = "male" then 10 * w + 6.25 * h - 5 * (a : ℚ) + 5
        else 10 * w + 6.25 * h - 5 * (a : ℚ) - 161)
    ∧ calculate_bmr_mifflin 70 175 25 "male" = 1673.75
    ∧ calculate_bmr_mifflin 1 1 50 "male" < 0 := by
  have hm : pyLower "male" = "male" := by decide
  refine ⟨fun w h a g => rfl, ?_, ?_⟩
  · rw [calculate_bmr_mifflin, if_pos hm]; norm_num
  · rw [calculate_bmr_mifflin, if_pos hm]; norm_num

/-- C3: `calculate_bmi` signals a division-by-zero error when the height
is zero, and returns `weight / (height/100)^2` for every nonzero height. -/
theorem calculate_bmi_spec :
    (∀ w : ℚ, calculate_bmi w 0 = Except.error divisionByZeroMsg)
    ∧ (∀ w h : ℚ, h ≠ 0 → calculate_bmi w h = Except.ok (w / (h / 100) ^ 2)) := by
  constructor
  · intro w; rfl
  · intro w h hh; rw [calculate_bmi, if_neg hh]

theorem calculate_bmi_spec_witness :
    (175 : ℚ) ≠ 0 ∧ calculate_bmi 70 175 = Except.ok (70 / ((175 : ℚ) / 100) ^ 2) :=
  ⟨by norm_num, calculate_bmi_spec.2 70 175 (by norm_num)⟩

/-- C4: with `height_unit = "ft"`, `calculate_all` calls `convert_height`
without separate feet/inches, the normalized height is `0` cm, and the BMI
division by zero makes every such call fail, whatever the height value. -/
theorem calculate_all_ft_always_fails :
    ∀ (age : ℤ) (gender : String) (weight height : ℚ)
      (activity_level goal weight_unit : String),
      calculate_all age gender weight height activity_level goal weight_unit "ft"
        = Except.error divisionByZeroMsg := by
  intro age gender weight height activity_level goal weight_unit
  have hh : convert_height height "ft" 0 0 = 0 := by
    rw [convert_height, if_pos rfl]; norm_num
  unfold calculate_all
  rw [hh]
  rfl

/-- C6: `calculate_macros` defaults the ratios to
`{protein := 0.30, carbs := 0.40, fats := 0.30}` when they are omitted;
for every ratios mapping, grams are `round(calories * ratio / 4)` for
protein and carbs and `round(calories * ratio / 9)` for fats, and the
percent is `round(ratio * 100)`; at 2000 kcal the defaults give
protein 150 g / 30 %, carbs 200 g / 40 %, fats 67 g / 30 %. -/
theorem calculate_macros_spec :
    (∀ c : ℤ, calculate_macros c none = calculate_macros c (some defaultRatios))
    ∧ defaultRatios = ⟨0.30, 0.40, 0.30⟩
    ∧ (∀ (c : ℤ) (r : MacroRatios),
        calculate_macros c (some r) =
          { protein := ⟨pyround ((c : ℚ) * r.protein / 4), pyround (r.protein * 100)⟩
            carbs := ⟨pyround ((c : ℚ) * r.carbs / 4), pyround (r.carbs * 100)⟩
            fats := ⟨pyround ((c : ℚ) * r.fats / 9), pyround (r.fats * 100)⟩ })
    ∧ calculate_macros 2000 none = ⟨⟨150, 30⟩, ⟨200, 40⟩, ⟨67, 30⟩⟩ := by
  refine ⟨fun c => rfl, rfl, fun c r => rfl, ?_⟩
  show calculate_macros 2000 (some defaultRatios) = _
  rw [calculate_macros]
  norm_num [defaultRatios, pyround, MacroBreakdown.mk.injEq, MacroInfo.mk.injEq]

/-- C9: `calculate_tdee` multiplies the BMR by the fixed multiplier of the
activity level (sedentary 1.2, light 1.375, moderate 1.55, active 1.725,
extra_active 1.9), falls back to the sedentary multiplier 1.2 on every
unknown activity string instead of failing, and
`calculate_tdee 1073.75 "sedentary" = 1288.5`. -/
theorem calculate_tdee_spec :
    (∀ bmr : ℚ,
      calculate_tdee bmr "sedentary" = bmr * 1.2
      ∧ calculate_tdee bmr "light" = bmr * 1.375
      ∧ calculate_tdee bmr "moderate" = bmr * 1.55
      ∧ calculate_tdee bmr "active" = bmr * 1.725
      ∧ calculate_tdee bmr "extra_active" = bmr * 1.9)
    ∧ (∀ (bmr : ℚ) (s : String),
        s ∉ ["sedentary", "light", "moderate", "active", "extra_active"] →
        calculate_tdee bmr s = bmr * 1.2)
    ∧ calculate_tdee 1073.75 "sedentary" = 1288.5 := by
  refine ⟨fun bmr => ⟨rfl, rfl, rfl, rfl, rfl⟩, ?_, ?_⟩
  · intro bmr s hs
    simp only [List.mem_cons, List.not_mem_nil, or_false, not_or] at hs
    obtain ⟨h1, h2, h3, h4, h5⟩ := hs
    rw [calculate_tdee, activity_multipliers,
      if_neg h1, if_neg h2, if_neg h3, if_neg h4, if_neg h5]
    rfl
  · show (1073.75 : ℚ) * (1.2 : ℚ) = 1288.5
    norm_num

theorem calculate_tdee_spec_witness :
    "weekend_warrior" ∉ ["sedentary", "light", "moderate", "active", "extra_active"]
    ∧ calculate_tdee 1000 "weekend_warrior" = 1000 * 1.2 :=
  ⟨by decide, calculate_tdee_spec.2.1 1000 "weekend_warrior" (by decide)⟩

/-- C10: `convert_height` returns `feet*30.48 + inches*2.54` when the unit
is `ft` (ignoring the primary height value in that branch: the result does
not depend on it) and returns the height unchanged for every other unit;
with the default `feet=0, inches=0` the `ft` branch yields `0`. -/
theorem convert_height_spec :
    (∀ (h : ℚ) (u : String) (f i : ℤ),
      convert_height h u f i =
        if u = "ft" then (f : ℚ) * 30.48 + (i : ℚ) * 2.54 else h)
    ∧ (∀ (h hAlt : ℚ) (f i : ℤ),
        convert_height h "ft" f i = convert_height hAlt "ft" f i)
    ∧ (∀ h : ℚ, convert_height h "ft" 0 0 = 0) := by
  refine ⟨fun h u f i => rfl, fun h hAlt f i => rfl, fun h => ?_⟩
  rw [convert_height, if_pos rfl]
  norm_num

/-- C5: `get_bmi_category` returns `Underweight` exactly below 18.5,
`Normal` exactly on `[18.5, 25)`, `Overweight` exactly on `[25, 30)`,
`Obese` exactly from 30 on; the boundaries 18.5, 25 and 30 fall in the
upper bracket. -/
theorem bmi_category_spec (b : ℚ) :
    (get_bmi_category b = "Underweight" ↔ b < 18.5)
    ∧ (get_bmi_category b = "Normal" ↔ 18.5 ≤ b ∧ b < 25)
    ∧ (get_bmi_category b = "Overweight" ↔ 25 ≤ b ∧ b < 30)
    ∧ (get_bmi_category b = "Obese" ↔ 30 ≤ b)
    ∧ get_bmi_category 18.5 = "Normal"
    ∧ get_bmi_category 25 = "Overweight"
    ∧ get_bmi_category 30 = "Obese" := by
  have c1 : get_bmi_category 18.5 = "Normal" := by
    rw [get_bmi_category]; norm_num
  have c2 : get_bmi_category 25 = "Overweight" := by
    rw [get_bmi_category]; norm_num
  have c3 : get_bmi_category 30 = "Obese" := by
    rw [get_bmi_category]; norm_num
  refine ⟨?_, ?_, ?_, ?_, c1, c2, c3⟩
  all_goals
    rw [get_bmi_category]
    split_ifs with h1 h2 h3 <;> simp <;>
      first
        | linarith
        | (constructor <;> linarith)
        | (intros; linarith)

/-- C7: `generate_meal_plan` distributes 30/40/30 percent over three meals,
25/10/30/10/25 percent over five meals, and 25/35/30/10 percent for every
other meal count (the default 4 included), each as
`round(calories * fraction)`; at 2000 kcal and 3 meals it yields
breakfast 600, lunch 800, dinner 600, summing to exactly 2000. -/
theorem generate_meal_plan_spec :
    (∀ c m : ℤ, m = 3 →
      generate_meal_plan c m =
        [("breakfast", pyround ((c : ℚ) * 0.30)),
         ("lunch", pyround ((c : ℚ) * 0.40)),
         ("dinner", pyround ((c : ℚ) * 0.30))])
    ∧ (∀ c m : ℤ, m = 5 →
      generate_meal_plan c m =
        [("breakfast", pyround ((c : ℚ) * 0.25)),
         ("snack1", pyround ((c : ℚ) * 0.10)),
         ("lunch", pyround ((c : ℚ) * 0.30)),
         ("snack2", pyround ((c : ℚ) * 0.10)),
         ("dinner", pyround ((c : ℚ) * 0.25))])
    ∧ (∀ c m : ℤ, m ≠ 3 → m ≠ 5 →
      generate_meal_plan c m =
        [("breakfast", pyround ((c : ℚ) * 0.25)),
         ("lunch", pyround ((c : ℚ) * 0.35)),
         ("dinner", pyround ((c : ℚ) * 0.30)),
         ("snacks", pyround ((c : ℚ) * 0.10))])
    ∧ generate_meal_plan 2000 3 = [("breakfast", 600), ("lunch", 800), ("dinner", 600)]
    ∧ meal_plan_total 2000 3 = 2000 := by
  refine ⟨?_, ?_, ?_, ?_, ?_⟩
  · rintro c m rfl; rfl
  · rintro c m rfl; rfl
  · intro c m h3 h5
    rw [generate_meal_plan, if_neg h3, if_neg h5]
  · norm_num [generate_meal_plan, pyround]
  · norm_num [meal_plan_total, generate_meal_plan, pyround]

theorem generate_meal_plan_spec_witness :
    generate_meal_plan 7 3 =
      [("breakfast", pyround ((7 : ℚ) * 0.30)),
       ("lunch", pyround ((7 : ℚ) * 0.40)),
       ("dinner", pyround ((7 : ℚ) * 0.30))]
    ∧ generate_meal_plan 7 5 =
      [("breakfast", pyround ((7 : ℚ) * 0.25)),
       ("snack1", pyround ((7 : ℚ) * 0.10)),
       ("lunch", pyround ((7 : ℚ) * 0.30)),
       ("snack2", pyround ((7 : ℚ) * 0.10)),
       ("dinner", pyround ((7 : ℚ) * 0.25))]
    ∧ generate_meal_plan 7 4 =
      [("breakfast", pyround ((7 : ℚ) * 0.25)),
       ("lunch", pyround ((7 : ℚ) * 0.35)),
       ("dinner", pyround ((7 : ℚ) * 0.30)),
       ("snacks", pyround ((7 : ℚ) * 0.10))] :=
  ⟨generate_meal_plan_spec.1 7 3 rfl,
   generate_meal_plan_spec.2.1 7 5 rfl,
   generate_meal_plan_spec.2.2.1 7 4 (by decide) (by decide)⟩

/-- C8 (counterexample): at 46 kcal and 5 meals the plan is
12 + 5 + 14 + 5 + 12 = 48 kcal, which deviates from the input by 2,
not by at most 1 as the claim states. -/
theorem meal_plan_total_claim_false :
    ¬ (meal_plan_total 46 5 - 46).natAbs ≤ 1 := by
  norm_num [meal_plan_total, generate_meal_plan, pyround]

/-- C8 (amended): for every calories value and every meal count, the sum of
the generated meal plan differs from the input calories by at most 2 (the
independent per-meal roundings drift the total; the deviation is accepted,
not corrected). -/
theorem meal_plan_total_within_two (c m : ℤ) :
    (meal_plan_total c m - c).natAbs ≤ 2 := by
  rw [meal_plan_total, generate_meal_plan]
  split_ifs with h3 h5
  · simp only [List.map_cons, List.map_nil, List.sum_cons, List.sum_nil, add_zero]
    obtain ⟨a1, b1⟩ := pyround_bounds ((c : ℚ) * 0.30)
    obtain ⟨a2, b2⟩ := pyround_bounds ((c : ℚ) * 0.40)
    apply natAbs_le_two_of_cast_lt <;> push_cast <;> linarith
  · simp only [List.map_cons, List.map_nil, List.sum_cons, List.sum_nil, add_zero]
    obtain ⟨a1, b1⟩ := pyround_bounds ((c : ℚ) * 0.25)
    obtain ⟨a2, b2⟩ := pyround_bounds ((c : ℚ) * 0.10)
    obtain ⟨a3, b3⟩ := pyround_bounds ((c : ℚ) * 0.30)
    apply natAbs_le_two_of_cast_lt <;> push_cast <;> linarith
  · simp only [List.map_cons, List.map_nil, List.sum_cons, List.sum_nil, add_zero]
    obtain ⟨a1, b1⟩ := pyround_bounds ((c : ℚ) * 0.25)
    obtain ⟨a2, b2⟩ := pyround_bounds ((c : ℚ) * 0.35)
    obtain ⟨a3, b3⟩ := pyround_bounds ((c : ℚ) * 0.30)
    obtain ⟨a4, b4⟩ := pyround_bounds ((c : ℚ) * 0.10)
    apply natAbs_le_two_of_cast_lt <;> push_cast <;> linarith

/-- C1: for every input whose normalized height is nonzero,
`calculate_all` returns a result whose daily calorie target is
`round(tdee + goalDelta)`, whose macros and meal plan are computed on that
daily target, whose projected weekly change is `(goalDelta * 7) / 7700`
rounded to 2 decimals, and whose normalized weight (kg) and height (cm)
are each rounded to 1 decimal; the goal deltas are
-1000, -500, 0, +500, +1000 and an unknown goal key yields a zero
adjustment. -/
theorem calculate_all_spec :
    (∀ (age : ℤ) (gender : String) (weight height : ℚ)
       (activity_level goal weight_unit height_unit : String),
      convert_height height height_unit 0 0 ≠ 0 →
      ∃ r : CalcResult,
        calculate_all age gender weight height activity_level goal weight_unit height_unit
          = Except.ok r
        ∧ r.daily_calories =
            pyround (calculate_tdee
              (calculate_bmr_mifflin (convert_weight weight weight_unit)
                (convert_height height height_unit 0 0) age gender) activity_level
              + ((goal_adjustments goal).getD 0 : ℚ))
        ∧ r.macros = calculate_macros r.daily_calories none
        ∧ r.meal_plan = generate_meal_plan r.daily_calories 4
        ∧ r.weekly_deficit_surplus = (goal_adjustments goal).getD 0
        ∧ r.projected_weekly_change_kg =
            pyround_to 2 (((goal_adjustments goal).getD 0 : ℚ) * 7 / 7700)
        ∧ r.weight_kg = pyround_to 1 (convert_weight weight weight_unit)
        ∧ r.height_cm = pyround_to 1 (convert_height height height_unit 0 0))
    ∧ goal_adjustments "lose_fast" = some (-1000)
    ∧ goal_adjustments "lose" = some (-500)
    ∧ goal_adjustments "maintain" = some 0
    ∧ goal_adjustments "gain" = some 500
    ∧ goal_adjustments "gain_fast" = some 1000
    ∧ (∀ g : String,
        g ∉ ["lose_fast", "lose", "maintain", "gain", "gain_fast"] →
        (goal_adjustments g).getD 0 = 0) := by
  refine ⟨?_, rfl, rfl, rfl, rfl, rfl, ?_⟩
  · intro age gender weight height activity_level goal weight_unit height_unit hh
    simp only [calculate_all]
    rw [calculate_bmi_ne_zero _ _ hh]
    exact ⟨_, rfl, rfl, rfl, rfl, rfl, rfl, rfl, rfl⟩
  · intro g hg
    simp only [List.mem_cons, List.not_mem_nil, or_false, not_or] at hg
    obtain ⟨h1, h2, h3, h4, h5⟩ := hg
    rw [goal_adjustments, if_neg h1, if_neg h2, if_neg h3, if_neg h4, if_neg h5]
    rfl

theorem calculate_all_spec_witness :
    (∃ r : CalcResult,
      calculate_all 25 "male" 70 175 "sedentary" "lose" "kg" "cm" = Except.ok r
      ∧ r.daily_calories =
          pyround (calculate_tdee
            (calculate_bmr_mifflin (convert_weight 70 "kg")
              (convert_height 175 "cm" 0 0) 25 "male") "sedentary"
            + ((goal_adjustments "lose").getD 0 : ℚ))
      ∧ r.macros = calculate_macros r.daily_calories none
      ∧ r.meal_plan = generate_meal_plan r.daily_calories 4
      ∧ r.weekly_deficit_surplus = (goal_adjustments "lose").getD 0
      ∧ r.projected_weekly_change_kg =
          pyround_to 2 (((goal_adjustments "lose").getD 0 : ℚ) * 7 / 7700)
      ∧ r.weight_kg = pyround_to 1 (convert_weight 70 "kg")
      ∧ r.height_cm = pyround_to 1 (convert_height 175 "cm" 0 0))
    ∧ (goal_adjustments "custom_goal").getD 0 = 0 :=
  ⟨calculate_all_spec.1 25 "male" 70 175 "sedentary" "lose" "kg" "cm"
      (by decide),
   calculate_all_spec.2.2.2.2.2.2 "custom_goal" (by decide)⟩

end CalorieWise
